import Mathlib

/-
Shallow embedding of epochfs.c, a FUSE passthrough filesystem whose single
transformation shifts the reported/stored timestamps by a calendar-based
epoch offset.

Modelling conventions:
- C byte strings (paths) are `List Char`.
- C `time_t` / `long long` values are `Int`; the cast back to `time_t` at the
  end of the codec wraps into the signed 64-bit range (`wrap64`), matching
  two's-complement behaviour on the 64-bit target (`sizeof(time_t) == 8`).
- C `int` results narrowed from wider types wrap via `wrap32`.
- A host syscall is an explicit function argument; a call that only
  reports success/failure is `Option Nat` (`none` = success, `some e` =
  failure with `errno = e`); a call producing data is `Except Nat α`.
- Out-parameters (`struct stat *buf`, `struct utimbuf *times`, `fi->fh`)
  become explicit components of the returned value.
-/

def PATH_MAX : Nat := 4096

/-- Two's-complement wrap of an integer into the signed 64-bit range
`[-2^63, 2^63)`, the behaviour of the `(time_t)` cast of a `long long` on
the 64-bit target. -/
def wrap64 (x : Int) : Int :=
  (x + 9223372036854775808) % 18446744073709551616 - 9223372036854775808

/-- Two's-complement wrap into the signed 32-bit range `[-2^31, 2^31)`,
the behaviour of a narrowing conversion to C `int`. -/
def wrap32 (x : Int) : Int :=
  (x + 2147483648) % 4294967296 - 2147483648

/-- The C cast `(int)fh` applied to an `unsigned long` handle value. -/
def cint_of_ulong (n : Nat) : Int := wrap32 (n : Int)

/-- epochfs_mkfullpath (epochfs.c:85-91): `memcpy` puts `base_path` into the
buffer, then `strncat(fullpathname, pathname, PATH_MAX - strlen(base_path))`
appends at most `PATH_MAX - strlen(base_path)` characters of `pathname`,
silently truncating the rest. Faithful for `strlen(base_path) ≤ PATH_MAX`
(beyond that the C code's buffer handling is undefined). -/
def epochfs_mkfullpath (base_path pathname : List Char) : List Char :=
  base_path ++ pathname.take (PATH_MAX - base_path.length)

/-- The day-count expression shared by epochfs_epoch_unix2local and
epochfs_epoch_local2unix (epochfs.c:102-105):
`(year*365) + (year > 0 ? (year+3)/4 - (year-1)/100 + (year-1)/400 : 0)`.
C `/` truncates toward zero; every division here is evaluated only under the
`year > 0` guard, where both operands are nonnegative and truncating
division coincides with Lean's `/` on `Int`. -/
def epochfs_days (year : Int) : Int :=
  year * 365 +
    (if 0 < year then (year + 3) / 4 - (year - 1) / 100 + (year - 1) / 400 else 0)

/-- `local_epoch_ll` (epochfs.c:102-103): the day count scaled by
`24 * 3600LL` seconds. -/
def epochfs_local_epoch_ll (year : Int) : Int :=
  epochfs_days year * 24 * 3600

/-- `diff_epoch_ll = local_epoch_ll - unix_epoch_ll` (epochfs.c:106), where
`unix_epoch_ll` instantiates the same expression at year 1970. -/
def epochfs_diff_epoch_ll (epoch : Int) : Int :=
  epochfs_local_epoch_ll epoch - epochfs_local_epoch_ll 1970

/-- epochfs_epoch_unix2local (epochfs.c:93-114): adds the epoch offset to a
stored timestamp; the result is cast back to `time_t` (64-bit wrap). -/
def epochfs_epoch_unix2local (epoch t : Int) : Int :=
  wrap64 (t + epochfs_diff_epoch_ll epoch)

/-- epochfs_epoch_local2unix (epochfs.c:116-137): subtracts the epoch offset
from a presented timestamp; the result is cast back to `time_t`. -/
def epochfs_epoch_local2unix (epoch t : Int) : Int :=
  wrap64 (t - epochfs_diff_epoch_ll epoch)

/-- Modelled from the spec (§4.2): `days(year) = year*365 + floor((year+3)/4)
- floor((year-1)/100) + floor((year-1)/400)` for `year > 0`; Lean's `/` on
`Int` is floor division for a positive divisor. Used only to compare the
code's offset against the spec's formula. -/
def spec_days (year : Int) : Int :=
  year * 365 + (year + 3) / 4 - (year - 1) / 100 + (year - 1) / 400

/-- The epoch-defaulting step of main (epochfs.c:843-850): when the parsed
`epoch` option is 0, the epoch becomes `tm.tm_year + 1900` obtained from
`localtime_r` at Unix time 0, i.e. the local calendar year of Unix time
zero; that external libc answer is the parameter `localYearAtUnixZero`. -/
def main_resolve_epoch (opt_epoch localYearAtUnixZero : Int) : Int :=
  if opt_epoch = 0 then localYearAtUnixZero else opt_epoch

/-- The fields of `struct stat` read or written by epochfs. -/
structure CStat where
  st_mode : Nat
  st_nlink : Nat
  st_uid : Nat
  st_gid : Nat
  st_size : Int
  st_atime : Int
  st_mtime : Int
  st_ctime : Int
deriving DecidableEq

/-- `struct utimbuf`. -/
structure CUtimbuf where
  actime : Int
  modtime : Int
deriving DecidableEq

/-- The fields of `struct fuse_file_info` used by epochfs: the open flags
and the `fh` handle field (an `unsigned long`). -/
structure FuseFileInfo where
  flags : Int
  fh : Nat
deriving DecidableEq

/-- epochfs_statfs (epochfs.c:142-157). The source computes `fullpath` but
then passes `path` — the virtual path — to `statvfs` (line 151). -/
def epochfs_statfs (host_statvfs : List Char → Option Nat)
    (base_path path : List Char) : Int :=
  let _fullpath := epochfs_mkfullpath base_path path
  match host_statvfs path with
  | some e => -(e : Int)
  | none => 0

/-- epochfs_getattr (epochfs.c:162-181): `lstat` on the full path, then the
three time fields of the result are shifted by unix2local. The filled
`struct stat` out-parameter is the second component (none on failure). -/
def epochfs_getattr (epoch : Int) (host_lstat : List Char → Except Nat CStat)
    (base_path pathname : List Char) : Int × Option CStat :=
  let fullpathname := epochfs_mkfullpath base_path pathname
  match host_lstat fullpathname with
  | .error e => (-(e : Int), none)
  | .ok buf =>
      (0, some { buf with
        st_atime := epochfs_epoch_unix2local epoch buf.st_atime
        st_mtime := epochfs_epoch_unix2local epoch buf.st_mtime
        st_ctime := epochfs_epoch_unix2local epoch buf.st_ctime })

/-- epochfs_unlink (epochfs.c:251-266): `unlink` on the full path. -/
def epochfs_unlink (host_unlink : List Char → Option Nat)
    (base_path pathname : List Char) : Int :=
  let fullpathname := epochfs_mkfullpath base_path pathname
  match host_unlink fullpathname with
  | some e => -(e : Int)
  | none => 0

/-- epochfs_utime (epochfs.c:375-393): overwrites `times->actime` and
`times->modtime` in place with their local2unix images, then calls `utime`
on the full path with that mutated structure. The final contents of the
caller's structure are the second component of the result. -/
def epochfs_utime (epoch : Int) (host_utime : List Char → CUtimbuf → Option Nat)
    (base_path pathname : List Char) (times : CUtimbuf) : Int × CUtimbuf :=
  let fullpathname := epochfs_mkfullpath base_path pathname
  let times2 : CUtimbuf :=
    { actime := epochfs_epoch_local2unix epoch times.actime
      modtime := epochfs_epoch_local2unix epoch times.modtime }
  match host_utime fullpathname times2 with
  | some e => (-(e : Int), times2)
  | none => (0, times2)

/-- epochfs_open (epochfs.c:537-555): `open(fullpathname, fi->flags)`; on
success the nonnegative descriptor is stored into `fi->fh` (the cast to
`unsigned long` preserves a nonnegative `int`). -/
def epochfs_open (host_open : List Char → Int → Except Nat Nat)
    (base_path pathname : List Char) (fi : FuseFileInfo) : Int × FuseFileInfo :=
  let fullpathname := epochfs_mkfullpath base_path pathname
  match host_open fullpathname fi.flags with
  | .error e => (-(e : Int), fi)
  | .ok fd => (0, { fi with fh := fd })

/-- epochfs_create (epochfs.c:557-575): `creat(fullpathname, mode)`; on
success the descriptor is stored into `fi->fh`. -/
def epochfs_create (host_creat : List Char → Nat → Except Nat Nat)
    (base_path pathname : List Char) (mode : Nat) (fi : FuseFileInfo) :
    Int × FuseFileInfo :=
  let fullpathname := epochfs_mkfullpath base_path pathname
  match host_creat fullpathname mode with
  | .error e => (-(e : Int), fi)
  | .ok fd => (0, { fi with fh := fd })

/-- epochfs_read (epochfs.c:577-592): `pread` on `(int)fi->fh`; the
`ssize_t` byte count is returned through the `int` return type (wrap32). -/
def epochfs_read (host_pread : Int → Nat → Int → Except Nat Nat)
    (fi : FuseFileInfo) (count : Nat) (offset : Int) : Int :=
  let fd := cint_of_ulong fi.fh
  match host_pread fd count offset with
  | .error e => -(e : Int)
  | .ok n => wrap32 (n : Int)

/-- epochfs_write (epochfs.c:594-609): `pwrite` on `(int)fi->fh`. -/
def epochfs_write (host_pwrite : Int → Nat → Int → Except Nat Nat)
    (fi : FuseFileInfo) (count : Nat) (offset : Int) : Int :=
  let fd := cint_of_ulong fi.fh
  match host_pwrite fd count offset with
  | .error e => -(e : Int)
  | .ok n => wrap32 (n : Int)

/-- epochfs_fgetattr (epochfs.c:672-691): `fstat` on `(int)fi->fh`, then the
three time fields of the result are shifted by unix2local. -/
def epochfs_fgetattr (epoch : Int) (host_fstat : Int → Except Nat CStat)
    (fi : FuseFileInfo) : Int × Option CStat :=
  let fd := cint_of_ulong fi.fh
  match host_fstat fd with
  | .error e => (-(e : Int), none)
  | .ok buf =>
      (0, some { buf with
        st_atime := epochfs_epoch_unix2local epoch buf.st_atime
        st_mtime := epochfs_epoch_unix2local epoch buf.st_mtime
        st_ctime := epochfs_epoch_unix2local epoch buf.st_ctime })

/-- epochfs_release (epochfs.c:741-756): `close((int)fi->fh)`; on failure
returns `-errno` with `fi` untouched, on success sets `fi->fh` to
`(unsigned long)-1` and returns 0. -/
def epochfs_release (host_close : Int → Option Nat) (fi : FuseFileInfo) :
    Int × FuseFileInfo :=
  let fd := cint_of_ulong fi.fh
  match host_close fd with
  | some e => (-(e : Int), fi)
  | none => (0, { fi with fh := 18446744073709551615 })

/-- Base path used in the concrete scenarios below. -/
def wBase : List Char := ("/srv/data").toList

/-- Virtual path used in the concrete scenarios below. -/
def wPath : List Char := ("/a").toList

/-- A concrete `struct stat` sample. -/
def wStat : CStat := ⟨420, 1, 1000, 1000, 7, 100, 200, 300⟩

/-- A concrete `struct utimbuf` sample. -/
def wTimes : CUtimbuf := ⟨100, 200⟩

/-- A concrete `fuse_file_info` sample holding descriptor 5. -/
def wFi : FuseFileInfo := ⟨0, 5⟩

/-- A host whose `statvfs` succeeds on the resolved physical path
"/srv/data/a" but fails with errno 2 on every other path, in particular on
the bare virtual path "/a". -/
def cexHostStatvfs (p : List Char) : Option Nat :=
  if p = ("/srv/data/a").toList then none else some 2

/-- A base path of length 4091: '/' followed by 4090 'a's. -/
def cexBase : List Char := '/' :: List.replicate 4090 'a'

/-- A virtual path of length 10: '/' followed by 9 'b's. -/
def cexPath : List Char := '/' :: List.replicate 9 'b'

def wHostLstat (_ : List Char) : Except Nat CStat := .ok wStat

def wHostLstatErr (_ : List Char) : Except Nat CStat := .error 13

def wHostFstat (_ : Int) : Except Nat CStat := .ok wStat

def wHostUtime (_ : List Char) (_ : CUtimbuf) : Option Nat := none

def wHostPreadOk (_ : Int) (_ : Nat) (_ : Int) : Except Nat Nat := .ok 42

def wHostPreadErr (_ : Int) (_ : Nat) (_ : Int) : Except Nat Nat := .error 5

def wHostPwriteOk (_ : Int) (_ : Nat) (_ : Int) : Except Nat Nat := .ok 17

def wHostPwriteErr (_ : Int) (_ : Nat) (_ : Int) : Except Nat Nat := .error 28

def wHostUnlinkOk (_ : List Char) : Option Nat := none

def wHostUnlinkErr (_ : List Char) : Option Nat := some 2

def wHostStatvfsOk (_ : List Char) : Option Nat := none

def wHostStatvfsErr (_ : List Char) : Option Nat := some 7

def wHostOpen (_ : List Char) (_ : Int) : Except Nat Nat := .ok 5

def wHostCreat (_ : List Char) (_ : Nat) : Except Nat Nat := .ok 6

def wHostCloseOk (_ : Int) : Option Nat := none

def wHostCloseErr (_ : Int) : Option Nat := some 9

/-- Helper: the `(int)` cast of an `unsigned long` is the identity on values
below `2^31` (every valid file descriptor). -/
theorem cint_of_ulong_small (n : Nat) (h : n < 2147483648) :
    cint_of_ulong n = n := by
  unfold cint_of_ulong wrap32
  omega

/-- Claim C1: for every configured epoch year and every timestamp in the
signed 64-bit range, the two codec functions are mutually inverse:
local2unix (unix2local t) = t and unix2local (local2unix t) = t. -/
theorem epoch_codec_roundtrip (epoch t : Int)
    (h1 : -9223372036854775808 ≤ t) (h2 : t ≤ 9223372036854775807) :
    epochfs_epoch_local2unix epoch (epochfs_epoch_unix2local epoch t) = t ∧
    epochfs_epoch_unix2local epoch (epochfs_epoch_local2unix epoch t) = t := by
  unfold epochfs_epoch_local2unix epochfs_epoch_unix2local wrap64
  constructor <;> omega

/-- Witness for C1 at epoch year 2000 and t = 946684800. -/
theorem epoch_codec_roundtrip_witness :
    (-9223372036854775808 ≤ (946684800 : Int) ∧
      (946684800 : Int) ≤ 9223372036854775807) ∧
    (epochfs_epoch_local2unix 2000 (epochfs_epoch_unix2local 2000 946684800) =
        946684800 ∧
      epochfs_epoch_unix2local 2000 (epochfs_epoch_local2unix 2000 946684800) =
        946684800) :=
  ⟨by decide, epoch_codec_roundtrip 2000 946684800 (by decide) (by decide)⟩

/-- Claim C2: for every positive year the code's offset equals
(days(year) - days(1970)) * 86400 with days taken from the spec's formula;
at epoch year 2000 the offset is exactly 946684800 seconds and
to_presented(0) = 946684800. -/
theorem epoch_offset_formula (year : Int) (hy : 0 < year) :
    epochfs_diff_epoch_ll year = (spec_days year - spec_days 1970) * 86400 ∧
    epochfs_diff_epoch_ll 2000 = 946684800 ∧
    epochfs_epoch_unix2local 2000 0 = 946684800 := by
  refine ⟨?_, by decide, by decide⟩
  unfold epochfs_diff_epoch_ll epochfs_local_epoch_ll epochfs_days spec_days
  rw [if_pos hy, if_pos (by norm_num : (0 : Int) < 1970)]
  ring

/-- Witness for C2 at year 2000. -/
theorem epoch_offset_formula_witness :
    (0 : Int) < 2000 ∧
    (epochfs_diff_epoch_ll 2000 = (spec_days 2000 - spec_days 1970) * 86400 ∧
      epochfs_diff_epoch_ll 2000 = 946684800 ∧
      epochfs_epoch_unix2local 2000 0 = 946684800) :=
  ⟨by decide, epoch_offset_formula 2000 (by decide)⟩

/-- Claim C5: whenever the combined length fits in PATH_MAX, path resolution
is the literal concatenation of the base path and the virtual path (hence no
normalization, no rejection of ".." segments, and the result starts with the
base path as a literal prefix). -/
theorem mkfullpath_literal_concat (base_path pathname : List Char)
    (h : base_path.length + pathname.length ≤ PATH_MAX) :
    epochfs_mkfullpath base_path pathname = base_path ++ pathname := by
  unfold epochfs_mkfullpath
  rw [List.take_of_length_le (by unfold PATH_MAX at *; omega)]

/-- Witness for C5: resolving "/a/b" under "/srv/data" yields
"/srv/data/a/b". -/
theorem mkfullpath_literal_concat_witness :
    (("/srv/data").toList.length + ("/a/b").toList.length ≤ PATH_MAX) ∧
    epochfs_mkfullpath ("/srv/data").toList ("/a/b").toList =
      ("/srv/data").toList ++ ("/a/b").toList ∧
    ("/srv/data").toList ++ ("/a/b").toList = ("/srv/data/a/b").toList :=
  ⟨by decide, mkfullpath_literal_concat _ _ (by decide), by decide⟩

/-- Claim C3 is false on the code (statfs): with a host whose `statvfs`
fails with errno 2 on the virtual path "/a" but succeeds on the resolved
physical path "/srv/data/a", epochfs_statfs returns -2 — the source invokes
the host on the virtual path, not on the resolved physical path it just
computed. -/
theorem statfs_queries_virtual_path :
    epochfs_statfs cexHostStatvfs wBase wPath = -2 ∧
    cexHostStatvfs (epochfs_mkfullpath wBase wPath) = none := by
  exact ⟨by decide, by decide⟩

/-- Helper: the length of the over-long base path sample. -/
theorem cexBase_length : cexBase.length = 4091 := by
  unfold cexBase
  rw [List.length_cons, List.length_replicate]

/-- Helper: the length of the virtual path sample used with it. -/
theorem cexPath_length : cexPath.length = 10 := by
  unfold cexPath
  rw [List.length_cons, List.length_replicate]

/-- Claim C4 is false as stated: at this concrete input the combined length
4101 exceeds PATH_MAX = 4096, yet path resolution does not fail — it
produces a silently truncated path (the base followed by the first 5
characters of the virtual path). -/
theorem mkfullpath_no_toolong_failure_cex :
    PATH_MAX < cexBase.length + cexPath.length ∧
    epochfs_mkfullpath cexBase cexPath = cexBase ++ cexPath.take 5 ∧
    epochfs_mkfullpath cexBase cexPath ≠ cexBase ++ cexPath := by
  have hb := cexBase_length
  have hp := cexPath_length
  refine ⟨by rw [hb, hp]; decide, ?_, ?_⟩
  · unfold epochfs_mkfullpath
    rw [hb]
    have h5 : PATH_MAX - 4091 = 5 := by decide
    rw [h5]
  · have hL1 : (epochfs_mkfullpath cexBase cexPath).length = 4096 := by
      unfold epochfs_mkfullpath
      rw [List.length_append, List.length_take, hb, hp]
      decide
    intro heq
    have hL2 := congrArg List.length heq
    rw [hL1, List.length_append, hb, hp] at hL2
    exact absurd hL2 (by decide)

/-- Claim C4 amended: when the combined length exceeds PATH_MAX (with a base
path that itself fits), resolution does not fail with a path-too-long
error: it silently truncates, returning a path of length exactly PATH_MAX
that differs from the full concatenation. -/
theorem mkfullpath_truncates (base_path pathname : List Char)
    (hb : base_path.length ≤ PATH_MAX)
    (h : PATH_MAX < base_path.length + pathname.length) :
    (epochfs_mkfullpath base_path pathname).length = PATH_MAX ∧
    epochfs_mkfullpath base_path pathname ≠ base_path ++ pathname := by
  have hlen : (epochfs_mkfullpath base_path pathname).length = PATH_MAX := by
    simp only [epochfs_mkfullpath, List.length_append, List.length_take]
    omega
  refine ⟨hlen, ?_⟩
  intro heq
  rw [heq, List.length_append] at hlen
  omega

/-- Witness for the amended C4 at the concrete over-long input. -/
theorem mkfullpath_truncates_witness :
    (cexBase.length ≤ PATH_MAX ∧ PATH_MAX < cexBase.length + cexPath.length) ∧
    ((epochfs_mkfullpath cexBase cexPath).length = PATH_MAX ∧
      epochfs_mkfullpath cexBase cexPath ≠ cexBase ++ cexPath) :=
  ⟨⟨by rw [cexBase_length]; decide, by rw [cexBase_length, cexPath_length]; decide⟩,
    mkfullpath_truncates cexBase cexPath (by rw [cexBase_length]; decide)
      (by rw [cexBase_length, cexPath_length]; decide)⟩

/-- Claim C6 is false as stated: in an environment where the local calendar
year of Unix time zero is 1969 (any timezone west of Greenwich, e.g.
US Eastern), leaving the epoch option at 0 resolves the epoch to 1969 and
the offset is not zero: to_presented(0) = -31536000 ≠ 0. -/
theorem default_epoch_nonzero_offset_cex :
    main_resolve_epoch 0 1969 = 1969 ∧
    epochfs_epoch_unix2local (main_resolve_epoch 0 1969) 0 = -31536000 ∧
    epochfs_epoch_unix2local (main_resolve_epoch 0 1969) 0 ≠ 0 := by
  exact ⟨by decide, by decide, by decide⟩

/-- Claim C6 amended: when the epoch option is unset the epoch defaults to
the local calendar year of Unix time zero as reported by localtime; when
that year is 1970 (as under UTC), the computed offset is zero and
to_presented is the identity on every representable timestamp. -/
theorem default_epoch_identity_when_1970 (t : Int)
    (h1 : -9223372036854775808 ≤ t) (h2 : t ≤ 9223372036854775807) :
    epochfs_epoch_unix2local (main_resolve_epoch 0 1970) t = t := by
  have hd : epochfs_diff_epoch_ll (main_resolve_epoch 0 1970) = 0 := by decide
  unfold epochfs_epoch_unix2local
  rw [hd]
  unfold wrap64
  omega

/-- Witness for the amended C6 at t = 42. -/
theorem default_epoch_identity_when_1970_witness :
    (-9223372036854775808 ≤ (42 : Int) ∧ (42 : Int) ≤ 9223372036854775807) ∧
    epochfs_epoch_unix2local (main_resolve_epoch 0 1970) 42 = 42 :=
  ⟨by decide, default_epoch_identity_when_1970 42 (by decide) (by decide)⟩

/-- Claim C7: getattr and fgetattr shift exactly the three time fields
(atime, mtime, ctime) of the host's attribute record by unix2local, leaving
mode, nlink, uid, gid and size exactly as the host reported them; utime
shifts exactly the caller's two time fields by local2unix and forwards that
shifted structure to the host. -/
theorem timestamp_transform_fields (epoch : Int)
    (host_lstat : List Char → Except Nat CStat)
    (host_fstat : Int → Except Nat CStat)
    (host_utime : List Char → CUtimbuf → Option Nat)
    (base_path pathname : List Char) (fi : FuseFileInfo)
    (buf bufF : CStat) (times : CUtimbuf)
    (hl : host_lstat (epochfs_mkfullpath base_path pathname) = .ok buf)
    (hf : host_fstat (cint_of_ulong fi.fh) = .ok bufF) :
    epochfs_getattr epoch host_lstat base_path pathname =
      (0, some { buf with
        st_atime := epochfs_epoch_unix2local epoch buf.st_atime
        st_mtime := epochfs_epoch_unix2local epoch buf.st_mtime
        st_ctime := epochfs_epoch_unix2local epoch buf.st_ctime }) ∧
    epochfs_fgetattr epoch host_fstat fi =
      (0, some { bufF with
        st_atime := epochfs_epoch_unix2local epoch bufF.st_atime
        st_mtime := epochfs_epoch_unix2local epoch bufF.st_mtime
        st_ctime := epochfs_epoch_unix2local epoch bufF.st_ctime }) ∧
    epochfs_utime epoch host_utime base_path pathname times =
      ((match host_utime (epochfs_mkfullpath base_path pathname)
            { actime := epochfs_epoch_local2unix epoch times.actime
              modtime := epochfs_epoch_local2unix epoch times.modtime } with
        | some e => -(e : Int)
        | none => 0),
        { actime := epochfs_epoch_local2unix epoch times.actime
          modtime := epochfs_epoch_local2unix epoch times.modtime }) := by
  refine ⟨?_, ?_, ?_⟩
  · simp [epochfs_getattr, hl]
  · simp [epochfs_fgetattr, hf]
  · cases h : host_utime (epochfs_mkfullpath base_path pathname)
        { actime := epochfs_epoch_local2unix epoch times.actime
          modtime := epochfs_epoch_local2unix epoch times.modtime } <;>
      simp [epochfs_utime, h]

/-- Witness for C7 on a concrete host and attribute record. -/
theorem timestamp_transform_fields_witness :
    (wHostLstat (epochfs_mkfullpath wBase wPath) = .ok wStat ∧
      wHostFstat (cint_of_ulong wFi.fh) = .ok wStat) ∧
    (epochfs_getattr 2000 wHostLstat wBase wPath =
        (0, some { wStat with
          st_atime := epochfs_epoch_unix2local 2000 wStat.st_atime
          st_mtime := epochfs_epoch_unix2local 2000 wStat.st_mtime
          st_ctime := epochfs_epoch_unix2local 2000 wStat.st_ctime }) ∧
      epochfs_fgetattr 2000 wHostFstat wFi =
        (0, some { wStat with
          st_atime := epochfs_epoch_unix2local 2000 wStat.st_atime
          st_mtime := epochfs_epoch_unix2local 2000 wStat.st_mtime
          st_ctime := epochfs_epoch_unix2local 2000 wStat.st_ctime }) ∧
      epochfs_utime 2000 wHostUtime wBase wPath wTimes =
        ((match wHostUtime (epochfs_mkfullpath wBase wPath)
              { actime := epochfs_epoch_local2unix 2000 wTimes.actime
                modtime := epochfs_epoch_local2unix 2000 wTimes.modtime } with
          | some e => -(e : Int)
          | none => 0),
          { actime := epochfs_epoch_local2unix 2000 wTimes.actime
            modtime := epochfs_epoch_local2unix 2000 wTimes.modtime })) :=
  ⟨⟨rfl, rfl⟩, timestamp_transform_fields 2000 wHostLstat wHostFstat wHostUtime
      wBase wPath wFi wStat wStat wTimes rfl rfl⟩

/-- Claim C8: each modelled dispatcher operation returns the negation of the
exact host errno when the host primitive fails, and the host's own result on
success — 0 for getattr, unlink and statfs, the byte count for read and
write (statfs queries the host on the virtual path, see C3, but propagates
the resulting error code unchanged all the same). -/
theorem errno_passthrough (epoch : Int) (base_path pathname : List Char)
    (fi : FuseFileInfo) (count : Nat) (offset : Int)
    (e1 e2 e3 e4 e5 : Nat) (buf : CStat) (n m : Nat)
    (hlErr hlOk : List Char → Except Nat CStat)
    (hrErr hrOk hwErr hwOk : Int → Nat → Int → Except Nat Nat)
    (huErr huOk hsErr hsOk : List Char → Option Nat)
    (h1 : hlErr (epochfs_mkfullpath base_path pathname) = .error e1)
    (h2 : hlOk (epochfs_mkfullpath base_path pathname) = .ok buf)
    (h3 : hrErr (cint_of_ulong fi.fh) count offset = .error e2)
    (h4 : hrOk (cint_of_ulong fi.fh) count offset = .ok n)
    (h4b : n < 2147483648)
    (h5 : hwErr (cint_of_ulong fi.fh) count offset = .error e3)
    (h6 : hwOk (cint_of_ulong fi.fh) count offset = .ok m)
    (h6b : m < 2147483648)
    (h7 : huErr (epochfs_mkfullpath base_path pathname) = some e4)
    (h8 : huOk (epochfs_mkfullpath base_path pathname) = none)
    (h9 : hsErr pathname = some e5)
    (h10 : hsOk pathname = none) :
    (epochfs_getattr epoch hlErr base_path pathname).1 = -(e1 : Int) ∧
    (epochfs_getattr epoch hlOk base_path pathname).1 = 0 ∧
    epochfs_read hrErr fi count offset = -(e2 : Int) ∧
    epochfs_read hrOk fi count offset = (n : Int) ∧
    epochfs_write hwErr fi count offset = -(e3 : Int) ∧
    epochfs_write hwOk fi count offset = (m : Int) ∧
    epochfs_unlink huErr base_path pathname = -(e4 : Int) ∧
    epochfs_unlink huOk base_path pathname = 0 ∧
    epochfs_statfs hsErr base_path pathname = -(e5 : Int) ∧
    epochfs_statfs hsOk base_path pathname = 0 := by
  refine ⟨?_, ?_, ?_, ?_, ?_, ?_, ?_, ?_, ?_, ?_⟩
  · simp [epochfs_getattr, h1]
  · simp [epochfs_getattr, h2]
  · simp [epochfs_read, h3]
  · simp only [epochfs_read, h4]
    unfold wrap32
    omega
  · simp [epochfs_write, h5]
  · simp only [epochfs_write, h6]
    unfold wrap32
    omega
  · simp [epochfs_unlink, h7]
  · simp [epochfs_unlink, h8]
  · simp [epochfs_statfs, h9]
  · simp [epochfs_statfs, h10]

/-- Witness for C8 on concrete hosts: errno 13 (lstat), 5 (pread),
28 (pwrite), 2 (unlink), 7 (statvfs); byte counts 42 and 17. -/
theorem errno_passthrough_witness :
    (wHostLstatErr (epochfs_mkfullpath wBase wPath) = .error 13 ∧
      wHostLstat (epochfs_mkfullpath wBase wPath) = .ok wStat ∧
      wHostPreadErr (cint_of_ulong wFi.fh) 10 0 = .error 5 ∧
      wHostPreadOk (cint_of_ulong wFi.fh) 10 0 = .ok 42 ∧
      (42 : Nat) < 2147483648 ∧
      wHostPwriteErr (cint_of_ulong wFi.fh) 10 0 = .error 28 ∧
      wHostPwriteOk (cint_of_ulong wFi.fh) 10 0 = .ok 17 ∧
      (17 : Nat) < 2147483648 ∧
      wHostUnlinkErr (epochfs_mkfullpath wBase wPath) = some 2 ∧
      wHostUnlinkOk (epochfs_mkfullpath wBase wPath) = none ∧
      wHostStatvfsErr wPath = some 7 ∧
      wHostStatvfsOk wPath = none) ∧
    ((epochfs_getattr 2000 wHostLstatErr wBase wPath).1 = -((13 : Nat) : Int) ∧
      (epochfs_getattr 2000 wHostLstat wBase wPath).1 = 0 ∧
      epochfs_read wHostPreadErr wFi 10 0 = -((5 : Nat) : Int) ∧
      epochfs_read wHostPreadOk wFi 10 0 = ((42 : Nat) : Int) ∧
      epochfs_write wHostPwriteErr wFi 10 0 = -((28 : Nat) : Int) ∧
      epochfs_write wHostPwriteOk wFi 10 0 = ((17 : Nat) : Int) ∧
      epochfs_unlink wHostUnlinkErr wBase wPath = -((2 : Nat) : Int) ∧
      epochfs_unlink wHostUnlinkOk wBase wPath = 0 ∧
      epochfs_statfs wHostStatvfsErr wBase wPath = -((7 : Nat) : Int) ∧
      epochfs_statfs wHostStatvfsOk wBase wPath = 0) :=
  ⟨⟨rfl, rfl, rfl, rfl, by decide, rfl, rfl, by decide, rfl, rfl, rfl, rfl⟩,
    errno_passthrough 2000 wBase wPath wFi 10 0 13 5 28 2 7 wStat 42 17
      wHostLstatErr wHostLstat wHostPreadErr wHostPreadOk wHostPwriteErr
      wHostPwriteOk wHostUnlinkErr wHostUnlinkOk wHostStatvfsErr wHostStatvfsOk
      rfl rfl rfl rfl (by decide) rfl rfl (by decide) rfl rfl rfl rfl⟩

/-- Claim C9: utime overwrites the caller-supplied times structure with the
local2unix-shifted values before invoking the host, so whatever the host
outcome — success or failure — the structure ends up holding the shifted
physical times, not the presented times passed in. -/
theorem utime_mutates_times (epoch : Int)
    (host_utime : List Char → CUtimbuf → Option Nat)
    (base_path pathname : List Char) (times : CUtimbuf) :
    (epochfs_utime epoch host_utime base_path pathname times).2 =
      { actime := epochfs_epoch_local2unix epoch times.actime
        modtime := epochfs_epoch_local2unix epoch times.modtime } := by
  cases h : host_utime (epochfs_mkfullpath base_path pathname)
      { actime := epochfs_epoch_local2unix epoch times.actime
        modtime := epochfs_epoch_local2unix epoch times.modtime } <;>
    simp [epochfs_utime, h]

/-- Claim C10: open and create store the descriptor returned by the host in
the handle field; release closes exactly that stored descriptor, returning 0
and overwriting the handle field with the sentinel (unsigned long)-1 on
success, and returning -errno with the handle field unchanged when the
host's close fails. -/
theorem release_closes_stored_fd
    (host_open : List Char → Int → Except Nat Nat)
    (host_creat : List Char → Nat → Except Nat Nat)
    (hcOk hcErr : Int → Option Nat)
    (base_path pathname : List Char) (mode : Nat) (fi : FuseFileInfo)
    (fd fd2 e : Nat)
    (ho : host_open (epochfs_mkfullpath base_path pathname) fi.flags = .ok fd)
    (hc : host_creat (epochfs_mkfullpath base_path pathname) mode = .ok fd2)
    (hfd : fd < 2147483648)
    (hok : hcOk (fd : Int) = none)
    (herr : hcErr (fd : Int) = some e) :
    (epochfs_open host_open base_path pathname fi).2.fh = fd ∧
    (epochfs_create host_creat base_path pathname mode fi).2.fh = fd2 ∧
    epochfs_release hcOk (epochfs_open host_open base_path pathname fi).2 =
      (0, { (epochfs_open host_open base_path pathname fi).2 with
              fh := 18446744073709551615 }) ∧
    epochfs_release hcErr (epochfs_open host_open base_path pathname fi).2 =
      (-(e : Int), (epochfs_open host_open base_path pathname fi).2) := by
  have hopen : (epochfs_open host_open base_path pathname fi).2 =
      { fi with fh := fd } := by
    simp [epochfs_open, ho]
  have hcreate : (epochfs_create host_creat base_path pathname mode fi).2 =
      { fi with fh := fd2 } := by
    simp [epochfs_create, hc]
  refine ⟨by rw [hopen], by rw [hcreate], ?_, ?_⟩
  · rw [hopen]
    simp [epochfs_release, cint_of_ulong_small fd hfd, hok]
  · rw [hopen]
    simp [epochfs_release, cint_of_ulong_small fd hfd, herr]

/-- Witness for C10: the host hands out descriptor 5 on open and 6 on
create; closing succeeds with one host and fails with errno 9 with the
other. -/
theorem release_closes_stored_fd_witness :
    (wHostOpen (epochfs_mkfullpath wBase wPath) wFi.flags = .ok 5 ∧
      wHostCreat (epochfs_mkfullpath wBase wPath) 420 = .ok 6 ∧
      (5 : Nat) < 2147483648 ∧
      wHostCloseOk ((5 : Nat) : Int) = none ∧
      wHostCloseErr ((5 : Nat) : Int) = some 9) ∧
    ((epochfs_open wHostOpen wBase wPath wFi).2.fh = 5 ∧
      (epochfs_create wHostCreat wBase wPath 420 wFi).2.fh = 6 ∧
      epochfs_release wHostCloseOk (epochfs_open wHostOpen wBase wPath wFi).2 =
        (0, { (epochfs_open wHostOpen wBase wPath wFi).2 with
                fh := 18446744073709551615 }) ∧
      epochfs_release wHostCloseErr (epochfs_open wHostOpen wBase wPath wFi).2 =
        (-((9 : Nat) : Int), (epochfs_open wHostOpen wBase wPath wFi).2)) :=
  ⟨⟨rfl, rfl, by decide, rfl, rfl⟩,
    release_closes_stored_fd wHostOpen wHostCreat wHostCloseOk wHostCloseErr
      wBase wPath 420 wFi 5 6 9 rfl rfl (by decide) rfl rfl⟩
